import Mathlib

/-!
# Verification of the openApex cognitive orchestration core

Shallow embedding, in Lean 4, of the core components of the openApex
agent runtime: the textual tool-call pattern matchers and `run_cycle`
of `core/agent_base.py`, the provider gateway `generate_response` of
`core/llm_router.py`, the `StateManager` of `orchestrator/state_manager.py`,
the `ContextWindow` of `memory/context_window.py`, the tool dispatcher
`Brain._execute_tool` and `Brain.solve` of `orchestrator/brain.py`, and the
`SwarmManager.delegate_task` of `core/swarm.py`.

Each definition is translated directly from the Python source.  External
effects (HTTP calls, tool side effects, the LLM itself) are modelled as
explicit oracle parameters; `uuid.uuid4()` is modelled as a fresh-string
parameter.  Python strings are modelled as Lean `String`, restricted to the
ASCII behaviour of `\w` and `\s` (the tool names and payloads handled by the
source are ASCII).
-/

namespace OpenApex

/-! ## Character classes of the Python regexes

`\w` is `[A-Za-z0-9_]` and `\s` is `[ \t\n\r\v\f]` on the ASCII inputs the
source handles. -/

def isWordChar (c : Char) : Bool :=
  c.isAlphanum || c = '_'

def isSpaceChar (c : Char) : Bool :=
  c = ' ' || c = '\t' || c = '\n' || c = '\r' || c = '\x0b' || c = '\x0c'

/-- Match a literal string at the head of the input; return the rest. -/
def dropLit : List Char → List Char → Option (List Char)
  | [], s => some s
  | _ :: _, [] => none
  | p :: ps, c :: cs => if c = p then dropLit ps cs else none

/-- Python `s.startswith(pre)`. -/
def pyStartsWith (s pre : String) : Bool :=
  (dropLit pre.toList s.toList).isSome

/-- Left-to-right non-overlapping removal of a non-empty `pat`: the fuel
only bounds recursion depth and `fuel = s.length` always suffices, because
every step consumes at least one character of the input. -/
def removeAllFuel (pat : List Char) : Nat → List Char → List Char
  | 0, s => s
  | _, [] => []
  | fuel + 1, c :: rest =>
    match dropLit pat (c :: rest) with
    | some after => removeAllFuel pat fuel after
    | none => c :: removeAllFuel pat fuel rest

/-- Python `s.replace(old, "")`: drop every non-overlapping occurrence of
`old`, scanning left to right (the only use of `str.replace` in the
source, line 58 of llm_router.py, has an empty replacement, for which
Python returns the input unchanged when `old` is itself empty). -/
def pyReplaceEmpty (s old : String) : String :=
  if old = "" then s
  else (removeAllFuel old.toList s.toList.length s.toList).asString

/-- Greedy `\w+`: the maximal non-empty run of word characters. -/
def takeWordRun (s : List Char) : Option (List Char × List Char) :=
  let w := s.takeWhile isWordChar
  if w = [] then none else some (w, s.dropWhile isWordChar)

/-- Greedy `\s*`. -/
def skipSpaces (s : List Char) : List Char :=
  s.dropWhile isSpaceChar

/-- Python `str.strip()` (ASCII whitespace). -/
def pyStrip (s : List Char) : List Char :=
  ((s.dropWhile isSpaceChar).reverse.dropWhile isSpaceChar).reverse

def pyStripS (s : String) : String :=
  (pyStrip s.toList).asString

/-! ## The lazy-body scanners

Each textual pattern ends in a lazily matched group followed by a fixed
continuation.  Lazy `.*?` semantics: at each position first try to close the
group and match the continuation; only if that fails, consume one more
character into the group.  `re.DOTALL` is implied: the group may contain
newline characters. -/

/-- Continuation of pattern 1 after the closing brace: `\s*</function>`. -/
def closes1 (s : List Char) : Bool :=
  (dropLit "</function>".toList (skipSpaces s)).isSome

/-- Lazy scan for `(\{.*?\})\s*</function>` bodies: returns the group body
(between the braces) and the input following the closing brace. -/
def lazyBrace1 (acc : List Char) : List Char → Option (List Char × List Char)
  | [] => none
  | c :: rest =>
    if c = '\x7d' && closes1 rest then some (acc, rest)
    else lazyBrace1 (acc ++ [c]) rest

/-- Lazy scan for a trailing `(\{.*?\})`: stops at the first closing brace. -/
def lazyBrace2 (acc : List Char) : List Char → Option (List Char × List Char)
  | [] => none
  | c :: rest =>
    if c = '\x7d' then some (acc, rest)
    else lazyBrace2 (acc ++ [c]) rest

/-- Continuation of pattern 3 after the closing brace: `\s*>`. -/
def closes3 (s : List Char) : Bool :=
  match skipSpaces s with
  | '>' :: _ => true
  | _ => false

/-- Lazy scan for `(\{.*?\})\s*>` bodies. -/
def lazyBrace3 (acc : List Char) : List Char → Option (List Char × List Char)
  | [] => none
  | c :: rest =>
    if c = '\x7d' && closes3 rest then some (acc, rest)
    else lazyBrace3 (acc ++ [c]) rest

/-- Lazy scan for `(.*?)</function>`: the shortest prefix followed by the
literal `</function>`. -/
def lazyUntilClose (acc : List Char) : List Char → Option (List Char × List Char)
  | [] => none
  | c :: rest =>
    match dropLit "</function>".toList (c :: rest) with
    | some after => some (acc, after)
    | none => lazyUntilClose (acc ++ [c]) rest

/-! ## The four anchored matchers

One per regex in the source.  Each returns the two captured groups.  The
group choices are deterministic for these patterns (no productive
backtracking exists: `\w`, `\s` and the delimiter characters are pairwise
disjoint), so a direct scan is faithful to Python `re` semantics. -/

/-- `agent_base.py` pattern 1 anchored at the head:
`<function=(\w+)\s*>\s*(\{.*?\})\s*</function>` (DOTALL). -/
def pat1At (s : List Char) : Option (List Char × List Char) :=
  match dropLit "<function=".toList s with
  | none => none
  | some s1 =>
    match takeWordRun s1 with
    | none => none
    | some (name, s2) =>
      match skipSpaces s2 with
      | '>' :: s3 =>
        match skipSpaces s3 with
        | '\x7b' :: s4 =>
          match lazyBrace1 [] s4 with
          | some (body, _) => some (name, '\x7b' :: body ++ ['\x7d'])
          | none => none
        | _ => none
      | _ => none

/-- `agent_base.py` pattern 2 anchored at the head:
`<function>(\w+)</function>\s*(\{.*?\})` (DOTALL). -/
def pat2At (s : List Char) : Option (List Char × List Char) :=
  match dropLit "<function>".toList s with
  | none => none
  | some s1 =>
    match takeWordRun s1 with
    | none => none
    | some (name, s2) =>
      match dropLit "</function>".toList s2 with
      | none => none
      | some s3 =>
        match skipSpaces s3 with
        | '\x7b' :: s4 =>
          match lazyBrace2 [] s4 with
          | some (body, _) => some (name, '\x7b' :: body ++ ['\x7d'])
          | none => none
        | _ => none

/-- `agent_base.py` pattern 3 anchored at the head:
`<function=(\w+)\s+(\{.*?\})\s*>` (DOTALL). -/
def pat3At (s : List Char) : Option (List Char × List Char) :=
  match dropLit "<function=".toList s with
  | none => none
  | some s1 =>
    match takeWordRun s1 with
    | none => none
    | some (name, s2) =>
      match s2 with
      | c :: s3 =>
        if isSpaceChar c then
          match skipSpaces s3 with
          | '\x7b' :: s4 =>
            match lazyBrace3 [] s4 with
            | some (body, _) => some (name, '\x7b' :: body ++ ['\x7d'])
            | none => none
          | _ => none
        else none
      | [] => none

/-- `llm_router.py` interception pattern anchored at the head:
`<function=([^>]+)>(.*?)</function>` (DOTALL). -/
def patRouterAt (s : List Char) : Option (List Char × List Char) :=
  match dropLit "<function=".toList s with
  | none => none
  | some s1 =>
    let name := s1.takeWhile (fun c => c ≠ '>')
    if name = [] then none
    else
      match s1.dropWhile (fun c => c ≠ '>') with
      | '>' :: s2 =>
        match lazyUntilClose [] s2 with
        | some (body, _) => some (name, body)
        | none => none
      | _ => none

/-- `re.search` semantics: try the anchored matcher at each start position,
leftmost first. -/
def searchFrom (matchAt : List Char → Option (List Char × List Char)) :
    List Char → Option (List Char × List Char)
  | [] => matchAt []
  | c :: rest =>
    match matchAt (c :: rest) with
    | some r => some r
    | none => searchFrom matchAt rest

def pat1Search (text : String) : Option (String × String) :=
  (searchFrom pat1At text.toList).map fun (n, a) => (n.asString, a.asString)

def pat2Search (text : String) : Option (String × String) :=
  (searchFrom pat2At text.toList).map fun (n, a) => (n.asString, a.asString)

def pat3Search (text : String) : Option (String × String) :=
  (searchFrom pat3At text.toList).map fun (n, a) => (n.asString, a.asString)

def patRouterSearch (text : String) : Option (String × String) :=
  (searchFrom patRouterAt text.toList).map fun (n, a) => (n.asString, a.asString)

/-! ## Data model

`ToolCallRequest` dicts `\x7b"id", "type", "function": \x7b"name", "arguments"\x7d\x7d`
and ledger message dicts, as built by `agent_base.py` and `llm_router.py`. -/

structure FuncSpec where
  name : String
  arguments : String
  deriving DecidableEq, Repr

structure ToolCall where
  id : String
  type : String
  function : FuncSpec
  deriving DecidableEq, Repr

/-- A ledger message: `\x7b"role", "content"?, "tool_calls"?, "tool_call_id"?, "name"?\x7d`.
Absent dict keys are `none`. -/
structure Msg where
  role : String
  content : Option String := none
  tool_calls : Option (List ToolCall) := none
  tool_call_id : Option String := none
  name : Option String := none
  deriving DecidableEq, Repr

/-- The `message` object of a provider response choice (the fields the core
reads: `role`, `content`, `tool_calls`; a missing key is `none`). -/
structure MessageData where
  role : Option String := none
  content : Option String := none
  tool_calls : Option (List ToolCall) := none
  deriving DecidableEq, Repr

structure Choice where
  message : MessageData
  deriving DecidableEq, Repr

/-- Normalized provider-gateway result: either a dict with an `"error"` key
or a success envelope with a `"choices"` list. -/
inductive RouterResult where
  | err (msg : String)
  | ok (choices : List Choice)
  deriving DecidableEq, Repr

/-- `f"call_\x7bstr(uuid.uuid4())[:8]\x7d"` with the fresh uuid string passed in
as `u`. -/
def mkCallId (u : String) : String :=
  "call_" ++ u.take 8

/-! ## `AgentBase._parse_xml_tool_call` (core/agent_base.py lines 49-79)

Tries pattern 1, then pattern 2, then pattern 3; on a match returns a
singleton list with one synthesized tool call whose groups are stripped. -/

def parse_xml_tool_call (u : String) (text : String) : Option (List ToolCall) :=
  let m := pat1Search text
  let m := match m with
    | some r => some r
    | none => pat2Search text
  let m := match m with
    | some r => some r
    | none => pat3Search text
  match m with
  | some (g1, g2) =>
      some [{ id := mkCallId u, type := "function",
              function := { name := pyStripS g1, arguments := pyStripS g2 } }]
  | none => none

/-- Result of one `run_cycle` call: the `status` dict it returns. -/
inductive CycleOut where
  | failed (error : String)
  | toolRequested (tool_calls : List ToolCall)
  | success (response : String)
  | unknown (raw : RouterResult)
  deriving DecidableEq, Repr

/-! ## `AgentBase.run_cycle` (core/agent_base.py lines 81-131)

The router call is abstracted into the `resp` argument (the network is an
oracle); the textual parser is a parameter `parser` so that its
(non-)involvement is visible in the statements — `run_cycle` instantiates it
with `parse_xml_tool_call u`, exactly as the source calls its own method.
The function returns the status together with the updated ledger. -/

/-- Lines 85-87: `if user_input: self.add_message("user", user_input)` —
the input is appended as a user message when present and truthy. -/
def withUserInput (history : List Msg) (userInput : Option String) : List Msg :=
  match userInput with
  | some u => if u = "" then history else history ++ [{ role := "user", content := some u }]
  | none => history

def run_cycleGen (parser : String → Option (List ToolCall))
    (history : List Msg) (userInput : Option String) (resp : RouterResult) :
    CycleOut × List Msg :=
  let history := withUserInput history userInput
  match resp with
  | .err e => (.failed e, history)
  | .ok choices =>
    match choices with
    | [] => (.failed "Empty response from LLM", history)
    | choice :: _ =>
      let md := choice.message
      match md.tool_calls with
      | some (c :: cs) =>
          -- Priority 1: structured tool_calls (truthy: present and non-empty)
          let cnt := md.content.getD ""
          (.toolRequested (c :: cs),
           history ++ [{ role := "assistant", content := some cnt,
                         tool_calls := some (c :: cs) }])
      | _ =>
        -- Priority 2: content present and truthy (non-empty string)
        match md.content with
        | some contentText =>
          if contentText ≠ "" then
            match parser contentText with
            | some calls =>
                (.toolRequested calls,
                 history ++ [{ role := "assistant", content := some "",
                               tool_calls := some calls }])
            | none =>
                (.success contentText,
                 history ++ [{ role := "assistant", content := some contentText }])
          else (.unknown resp, history)
        | none => (.unknown resp, history)

def run_cycle (u : String) (history : List Msg) (userInput : Option String)
    (resp : RouterResult) : CycleOut × List Msg :=
  run_cycleGen (parse_xml_tool_call u) history userInput resp

/-! ## `LLMRouter` (core/llm_router.py)

`__init__` reads two credentials and two default model names from the
environment; `generate_response` selects one model by `task_type`, issues the
request, and handles errors.  The HTTP layer is an oracle
`http : HttpRequest → HttpOutcome`; the function also returns the ordered
trace of requests it issued, so that claims about which providers were
contacted are statable. -/

inductive Provider where
  | groq
  | openrouter
  deriving DecidableEq, Repr

structure RouterEnv where
  openrouter_api_key : Option String
  groq_api_key : Option String
  default_reasoning_model : String := "anthropic/claude-3.5-sonnet"
  default_tooling_model : String := "meta-llama/llama-3-8b-instruct"
  deriving DecidableEq, Repr

/-- The required credential of each provider endpoint, as wired into the
request headers in `__init__` (lines 23-33). -/
def credentialOf (env : RouterEnv) : Provider → Option String
  | .groq => env.groq_api_key
  | .openrouter => env.openrouter_api_key

/-- One HTTP POST issued by `generate_response`: target provider, the
`model` field of the payload, the messages, and the `tools` field (present
only when the `tools` argument is truthy). -/
structure HttpRequest where
  provider : Provider
  model : String
  messages : List Msg
  tools : Option (List String)
  deriving DecidableEq, Repr

/-- The JSON body of an HTTP error response, as far as the interception code
reads it: `error.code` and `error.failed_generation` (a missing `error` key
or missing fields are `none`; a body that fails to parse as JSON is
`nonJson` — the `except` at line 114 swallows that). -/
inductive ErrorBody where
  | jsonBody (code : Option String) (failed_generation : Option String)
  | nonJson
  deriving DecidableEq, Repr

/-- Outcome of one `requests.post` + `raise_for_status` + `json()`:
success with a parsed `choices` list, an `HTTPError` carrying the status and
body, or a non-HTTP `RequestException`. -/
inductive HttpOutcome where
  | ok (choices : List Choice)
  | httpError (status : Nat) (body : ErrorBody) (msg : String)
  | netError (msg : String)
  deriving DecidableEq, Repr

/-- The Groq → OpenRouter model translation table (lines 36-44). -/
def groq_to_openrouter_map : List (String × String) :=
  [("llama-3.3-70b-versatile", "meta-llama/llama-3.3-70b-instruct"),
   ("llama-3.1-70b-versatile", "meta-llama/llama-3.1-70b-instruct"),
   ("llama-3.1-8b-instant", "meta-llama/llama-3.1-8b-instruct"),
   ("llama3-70b-8192", "meta-llama/llama-3-70b-instruct"),
   ("llama3-8b-8192", "meta-llama/llama-3-8b-instruct"),
   ("gemma2-9b-it", "google/gemma-2-9b-it"),
   ("mixtral-8x7b-32768", "mistralai/mixtral-8x7b-instruct")]

def mapLookup (m : List (String × String)) (k : String) : Option String :=
  (m.find? (fun p => p.1 = k)).map Prod.snd

/-- `payload["tools"] = tools` is added only `if tools:` (truthy). -/
def payloadTools (tools : Option (List String)) : Option (List String) :=
  match tools with
  | some l => if l = [] then none else some l
  | none => none

/-- The model selected by `task_type` (line 53). -/
def selectModel (env : RouterEnv) (task_type : String) : String :=
  if task_type = "reasoning" then env.default_reasoning_model
  else env.default_tooling_model

/-- The first request `generate_response` issues (lines 56-75): Groq native
when the model name starts with `groq/` (prefix removed), else OpenRouter. -/
def initialRequest (env : RouterEnv) (task_type : String)
    (messages : List Msg) (tools : Option (List String)) : HttpRequest :=
  let model := selectModel env task_type
  let is_groq := pyStartsWith model "groq/"
  let api_model := if is_groq then pyReplaceEmpty model "groq/" else model
  { provider := if is_groq then .groq else .openrouter,
    model := api_model, messages := messages, tools := payloadTools tools }

/-- The `tool_use_failed` interception (lines 82-113): on a 400 whose JSON
body has `error.code == "tool_use_failed"` and a `failed_generation` key,
search it with the router pattern; a match yields the stripped groups. -/
def interceptToolUseFailed (status : Nat) (body : ErrorBody) :
    Option (String × String) :=
  if status = 400 then
    match body with
    | .jsonBody code fg =>
      if code = some "tool_use_failed" then
        match fg with
        | some failed_gen =>
          match patRouterSearch failed_gen with
          | some (n, a) => some (pyStripS n, pyStripS a)
          | none => none
        | none => none
      else none
    | .nonJson => none
  else none

/-- The synthesized OpenAI-compatible success envelope (lines 96-113). -/
def syntheticEnvelope (u : String) (func_name func_args : String) :
    List Choice :=
  [{ message := { role := some "assistant", content := none,
                  tool_calls := some [{ id := mkCallId u, type := "function",
                                        function := { name := func_name,
                                                      arguments := func_args } }] } }]

/-- `LLMRouter.generate_response` (lines 46-149).  Returns the normalized
result and the ordered trace of HTTP requests issued. -/
def generate_response (env : RouterEnv) (http : HttpRequest → HttpOutcome)
    (messages : List Msg) (task_type : String) (tools : Option (List String))
    (u : String) : RouterResult × List HttpRequest :=
  let model := selectModel env task_type
  let is_groq := pyStartsWith model "groq/"
  let api_model := if is_groq then pyReplaceEmpty model "groq/" else model
  let req1 := initialRequest env task_type messages tools
  match http req1 with
  | .ok data => (.ok data, [req1])
  | .netError m => (.err m, [req1])
  | .httpError status body m =>
    match interceptToolUseFailed status body with
    | some (func_name, func_args) =>
        (.ok (syntheticEnvelope u func_name func_args), [req1])
    | none =>
      if is_groq then
        let or_model := (mapLookup groq_to_openrouter_map api_model).getD
          "meta-llama/llama-3.3-70b-instruct"
        let req2 : HttpRequest :=
          { provider := .openrouter, model := or_model,
            messages := messages, tools := payloadTools tools }
        match http req2 with
        | .ok d => (.ok d, [req1, req2])
        | .httpError _ _ m2 => (.err m2, [req1, req2])
        | .netError m2 => (.err m2, [req1, req2])
      else (.err m, [req1])

/-! ## `StateManager` (orchestrator/state_manager.py) -/

structure StateManager where
  current_state : String
  task_queue : List String
  completed_tasks : List String
  max_iterations_per_task : Nat
  current_iteration : Nat
  deriving DecidableEq, Repr

/-- `StateManager.__init__` (lines 19-26). -/
def stateManagerInit : StateManager :=
  { current_state := "IDLE", task_queue := [], completed_tasks := [],
    max_iterations_per_task := 10, current_iteration := 0 }

/-- `StateManager.set_state` (lines 28-39): invalid names are rejected
without mutation; PLANNING and IDLE reset the iteration counter. -/
def set_state (s : StateManager) (new_state : String) : StateManager :=
  if new_state ∈ ["IDLE", "PLANNING", "EXECUTING", "VERIFYING", "ERROR"] then
    let s1 := { s with current_state := new_state }
    if new_state ∈ ["PLANNING", "IDLE"] then { s1 with current_iteration := 0 }
    else s1
  else s

/-- `StateManager.increment_iteration` (lines 41-54). -/
def increment_iteration (s : StateManager) : Bool × StateManager :=
  let s1 := { s with current_iteration := s.current_iteration + 1 }
  if s1.current_iteration > s1.max_iterations_per_task then
    (false, set_state s1 "ERROR")
  else
    (true, s1)

/-- Iterated `increment_iteration` (the sequence of calls the loop makes),
keeping the state component. -/
def incRun (s : StateManager) : Nat → StateManager
  | 0 => s
  | k + 1 => (increment_iteration (incRun s k)).2

/-! ## `ContextWindow` (memory/context_window.py) -/

structure CWMsg where
  role : String
  content : String
  deriving DecidableEq, Repr

/-- `get_total_length` (lines 16-18). -/
def cwTotalLength (h : List CWMsg) : Nat :=
  (h.map (fun m => m.content.length)).sum

/-- `self.history.pop(1)`: remove the entry at index 1. -/
def popIndex1 : List CWMsg → List CWMsg
  | a :: _ :: t => a :: t
  | l => l

/-- `_prune_history` (lines 25-36): while the character budget is exceeded
and more than two entries remain, pop index 1 (preserving index 0). -/
def pruneHistory (max_chars : Nat) (h : List CWMsg) : List CWMsg :=
  if cwTotalLength h > max_chars ∧ h.length > 2 then
    pruneHistory max_chars (popIndex1 h)
  else h
termination_by h.length
decreasing_by
  rename_i hcond
  obtain ⟨h1, h2⟩ := hcond
  cases h with
  | nil => simp at h2
  | cons a t =>
    cases t with
    | nil => simp at h2
    | cons b t2 => simp [popIndex1]

/-- `ContextWindow.add_message` (lines 20-23): append, then prune. -/
def cwAddMessage (max_chars : Nat) (h : List CWMsg) (role content : String) :
    List CWMsg :=
  pruneHistory max_chars (h ++ [{ role := role, content := content }])

/-- A sequence of `ContextWindow.add_message` operations. -/
def cwApply (max_chars : Nat) (h : List CWMsg) :
    List (String × String) → List CWMsg
  | [] => h
  | (r, c) :: ops => cwApply max_chars (cwAddMessage max_chars h r c) ops

/-- `AgentBase.add_message` (core/agent_base.py lines 41-47): builds the
message dict and appends it; no pruning ever happens in the agent ledger. -/
def agentAddMessage (h : List Msg) (m : Msg) : List Msg :=
  h ++ [m]

/-- A sequence of `AgentBase.add_message` operations. -/
def agentApply (h : List Msg) : List Msg → List Msg
  | [] => h
  | m :: ms => agentApply (agentAddMessage h m) ms

/-! ## `Brain._execute_tool` (orchestrator/brain.py lines 201-454)

The dispatcher receives the tool name and a parsed JSON argument dict and
dispatches by name through an if/elif chain.  The concrete tool backends
(shell, files, browser, voice, ...) are external collaborators, out of the
core's scope; the embedding records precisely which backend call the
dispatcher performs (`DispatchResult.invoke`) or which error string it
returns without invoking anything (`DispatchResult.errorStr`). -/

/-- A Python JSON scalar, as found in a parsed argument dict. -/
inductive PyVal where
  | str (s : String)
  | int (n : Int)
  | boolv (b : Bool)
  deriving DecidableEq, Repr

/-- Python truthiness of `arguments.get(key)` results. -/
def truthy : Option PyVal → Bool
  | none => false
  | some (.str s) => s ≠ ""
  | some (.int n) => n ≠ 0
  | some (.boolv b) => b

def Args := List (String × PyVal)

def argGet (args : Args) (k : String) : Option PyVal :=
  (args.find? (fun p => p.1 = k)).map Prod.snd

def argGetD (args : Args) (k : String) (d : PyVal) : PyVal :=
  (argGet args k).getD d

/-- `v = arguments.get(k)` followed by a `if not v:` guard: `some v` exactly
when the value is present and truthy. -/
def argReq (args : Args) (k : String) : Option PyVal :=
  let v := argGet args k
  if truthy v then v else none

def pyStr : PyVal → String
  | .str s => s
  | .int n => toString n
  | .boolv b => if b then "True" else "False"

/-- Python `text[:100]` on the string payloads the tool handles. -/
def pySlice100 : PyVal → PyVal
  | .str s => .str (s.take 100)
  | v => v

/-- The backend call the dispatcher performs, with the argument values it
passes (raw, as extracted from the dict; `int(pid)` coercion happens inside
the backend call and is kept with the raw value here). -/
inductive ToolAct where
  | runCommand (cmd : PyVal)
  | readFile (filepath : PyVal)
  | writeFile (filepath content : PyVal)
  | patchFile (filepath old_string new_string : PyVal)
  | listDirectory (path : PyVal)
  | browserAct (action url : PyVal) (selector : Option PyVal)
  | webSearch (query max_results : PyVal)
  | runPython (code : PyVal)
  | selfReflect (task result : PyVal)
  | recallKnowledge (query n_results : PyVal)
  | studyUrl (url : PyVal)
  | delegateTaskCall (role_name task_description : PyVal) (allowed : Option PyVal)
  | takeScreenshot (filename : PyVal)
  | getClipboard
  | setClipboard (text : PyVal)
  | listProcesses (limit : PyVal)
  | killProcess (pid : PyVal)
  | getDiskUsage
  | openApplication (path : PyVal)
  | getSystemStats
  | textToSpeech (text language : PyVal) (filename : Option PyVal) (slow : PyVal)
  | speechToText (audio_path language : PyVal)
  | listTtsVoices (language_filter : Option PyVal)
  | webFetch (url extract_mode max_chars : PyVal)
  | analyzeImage (image_path prompt : PyVal)
  | cronAdd (name command interval : PyVal)
  | cronList
  | cronRemove (job_id : PyVal)
  | whatsappShowQr
  | whatsappCheckMessages
  | whatsappReadChat (contact : PyVal)
  | whatsappCall (contact : PyVal)
  | sendTelegramVoice (chat_id file_path : PyVal)
  | sendTelegramPhoto (chat_id file_path caption : PyVal)
  | sendTelegram (chat_id text : PyVal)
  | sendWhatsapp (chat_id text : PyVal)
  | twitterPost (text : PyVal)
  | redditPost (subreddit title text : PyVal)
  | twitterSearch (query limit : PyVal)
  | redditRead (query limit : PyVal)
  | twitterReply (post_id text : PyVal)
  | redditComment (post_id text : PyVal)
  deriving DecidableEq, Repr

inductive DispatchResult where
  | invoke (act : ToolAct)
  | errorStr (s : String)
  deriving DecidableEq, Repr

/-- `json.dumps(\x7b"error": m\x7d)` for the plain messages the dispatcher emits. -/
def errJson (m : String) : String :=
  "\x7b\"error\": \"" ++ m ++ "\"\x7d"

def execute_tool (tool_name : String) (args : Args) : DispatchResult :=
  if tool_name = "system_run_command" then
    match argReq args "command" with
    | some cmd => .invoke (.runCommand cmd)
    | none => .errorStr (errJson "Missing \x27command\x27 argument")
  else if tool_name = "system_read_file" then
    match argReq args "filepath" with
    | some filepath => .invoke (.readFile filepath)
    | none => .errorStr (errJson "Missing \x27filepath\x27 argument")
  else if tool_name = "system_write_file" then
    match argReq args "filepath", argReq args "content" with
    | some filepath, some content => .invoke (.writeFile filepath content)
    | _, _ => .errorStr (errJson "Missing \x27filepath\x27 or \x27content\x27 argument")
  else if tool_name = "system_patch_file" then
    match argReq args "filepath", argReq args "old_string", argReq args "new_string" with
    | some filepath, some old_str, some new_str =>
        .invoke (.patchFile filepath old_str new_str)
    | _, _, _ =>
        .errorStr (errJson "Missing \x27filepath\x27, \x27old_string\x27, or \x27new_string\x27 argument")
  else if tool_name = "system_list_directory" then
    .invoke (.listDirectory (argGetD args "path" (.str ".")))
  else if tool_name = "browser_act" then
    match argReq args "action", argReq args "url" with
    | some action, some url => .invoke (.browserAct action url (argGet args "selector"))
    | _, _ => .errorStr (errJson "Missing \x27action\x27 or \x27url\x27 argument for browser")
  else if tool_name = "web_search" then
    match argReq args "query" with
    | some query => .invoke (.webSearch query (argGetD args "max_results" (.int 5)))
    | none => .errorStr (errJson "Missing \x27query\x27 argument for web search")
  else if tool_name = "run_python" then
    match argReq args "code" with
    | some code => .invoke (.runPython code)
    | none => .errorStr (errJson "Missing \x27code\x27 argument for python repl")
  else if tool_name = "self_reflect" then
    match argReq args "task", argReq args "result" with
    | some task, some result => .invoke (.selfReflect task result)
    | _, _ => .errorStr (errJson "Missing \x27task\x27 or \x27result\x27 argument")
  else if tool_name = "recall_knowledge" then
    match argReq args "query" with
    | some query => .invoke (.recallKnowledge query (argGetD args "n_results" (.int 3)))
    | none => .errorStr (errJson "Missing \x27query\x27 argument")
  else if tool_name = "study_url" then
    match argReq args "url" with
    | some url => .invoke (.studyUrl url)
    | none => .errorStr (errJson "Missing \x27url\x27 argument")
  else if tool_name = "delegate_task" then
    match argReq args "role_name", argReq args "task_description" with
    | some role_name, some task_desc =>
        .invoke (.delegateTaskCall role_name task_desc (argGet args "allowed_tools"))
    | _, _ => .errorStr (errJson "Missing \x27role_name\x27 or \x27task_description\x27")
  else if tool_name = "take_screenshot" then
    .invoke (.takeScreenshot (argGetD args "filename" (.str "screenshot.png")))
  else if tool_name = "get_clipboard" then
    .invoke .getClipboard
  else if tool_name = "set_clipboard" then
    match argReq args "text" with
    | some text => .invoke (.setClipboard text)
    | none => .errorStr (errJson "Missing \x27text\x27 argument")
  else if tool_name = "list_processes" then
    .invoke (.listProcesses (argGetD args "limit" (.int 20)))
  else if tool_name = "kill_process" then
    match argGet args "pid" with
    | some pid => .invoke (.killProcess pid)
    | none => .errorStr (errJson "Missing \x27pid\x27 argument")
  else if tool_name = "get_disk_usage" then
    .invoke .getDiskUsage
  else if tool_name = "open_application" then
    match argReq args "path" with
    | some path => .invoke (.openApplication path)
    | none => .errorStr (errJson "Missing \x27path\x27 argument")
  else if tool_name = "get_system_stats" then
    .invoke .getSystemStats
  else if tool_name = "text_to_speech" then
    match argReq args "text" with
    | some text =>
        .invoke (.textToSpeech text (argGetD args "language" (.str "id"))
          (argGet args "filename") (argGetD args "slow" (.boolv false)))
    | none => .errorStr (errJson "Missing \x27text\x27 argument")
  else if tool_name = "speech_to_text" then
    match argReq args "audio_path" with
    | some audio_path =>
        .invoke (.speechToText audio_path (argGetD args "language" (.str "id")))
    | none => .errorStr (errJson "Missing \x27audio_path\x27 argument")
  else if tool_name = "list_tts_voices" then
    .invoke (.listTtsVoices (argGet args "language_filter"))
  else if tool_name = "web_fetch" then
    match argReq args "url" with
    | some url =>
        .invoke (.webFetch url (argGetD args "extract_mode" (.str "text"))
          (argGetD args "max_chars" (.int 10000)))
    | none => .errorStr (errJson "Missing \x27url\x27 argument")
  else if tool_name = "analyze_image" then
    match argReq args "image_path" with
    | some image_path =>
        .invoke (.analyzeImage image_path
          (argGetD args "prompt" (.str "Describe this image in detail.")))
    | none => .errorStr (errJson "Missing \x27image_path\x27 argument")
  else if tool_name = "cron_add" then
    match argReq args "name", argReq args "command" with
    | some name, some command =>
        .invoke (.cronAdd name command (argGetD args "interval_minutes" (.int 60)))
    | _, _ => .errorStr (errJson "Missing \x27name\x27 or \x27command\x27")
  else if tool_name = "cron_list" then
    .invoke .cronList
  else if tool_name = "cron_remove" then
    match argReq args "job_id" with
    | some job_id => .invoke (.cronRemove job_id)
    | none => .errorStr (errJson "Missing \x27job_id\x27")
  else if tool_name = "whatsapp_show_qr" then
    .invoke .whatsappShowQr
  else if tool_name = "whatsapp_check_messages" then
    .invoke .whatsappCheckMessages
  else if tool_name = "whatsapp_read_chat" then
    match argReq args "contact_name" with
    | some contact => .invoke (.whatsappReadChat contact)
    | none => .errorStr (errJson "Missing \x27contact_name\x27")
  else if tool_name = "physical_whatsapp_call" then
    match argReq args "contact_name" with
    | some contact => .invoke (.whatsappCall contact)
    | none => .errorStr (errJson "Missing \x27contact_name\x27")
  else if tool_name = "send_message" then
    let platform := argGetD args "platform" (.str "telegram")
    let msg_type := argGetD args "type" (.str "text")
    let file_path := argGet args "file_path"
    match argReq args "chat_id", argReq args "text" with
    | some chat_id, some text =>
      if platform = .str "telegram" then
        if msg_type = .str "voice" ∧ truthy file_path then
          .invoke (.sendTelegramVoice chat_id (file_path.getD (.str "")))
        else if msg_type = .str "photo" ∧ truthy file_path then
          .invoke (.sendTelegramPhoto chat_id (file_path.getD (.str "")) text)
        else .invoke (.sendTelegram chat_id text)
      else if platform = .str "whatsapp" then
        .invoke (.sendWhatsapp chat_id text)
      else .errorStr (errJson ("Unsupported platform: " ++ pyStr platform))
    | _, _ => .errorStr (errJson "Missing \x27chat_id\x27 or \x27text\x27")
  else if tool_name = "social_post" then
    match argReq args "platform", argReq args "text" with
    | some platform, some text =>
      if platform = .str "twitter" then .invoke (.twitterPost text)
      else if platform = .str "reddit" then
        .invoke (.redditPost (argGetD args "subreddit" (.str "test"))
          (argGetD args "title" (pySlice100 text)) text)
      else .errorStr (errJson ("Unknown social platform: " ++ pyStr platform))
    | _, _ => .errorStr (errJson "Missing \x27platform\x27 or \x27text\x27")
  else if tool_name = "social_read" then
    match argReq args "platform", argReq args "query" with
    | some platform, some query =>
      let limit := argGetD args "limit" (.int 5)
      if platform = .str "twitter" then .invoke (.twitterSearch query limit)
      else if platform = .str "reddit" then .invoke (.redditRead query limit)
      else .errorStr (errJson ("Unknown social platform: " ++ pyStr platform))
    | _, _ => .errorStr (errJson "Missing \x27platform\x27 or \x27query\x27")
  else if tool_name = "social_reply" then
    match argReq args "platform", argReq args "post_id", argReq args "text" with
    | some platform, some post_id, some text =>
      if platform = .str "twitter" then .invoke (.twitterReply post_id text)
      else if platform = .str "reddit" then .invoke (.redditComment post_id text)
      else .errorStr (errJson ("Unknown social platform: " ++ pyStr platform))
    | _, _, _ => .errorStr (errJson "Missing \x27platform\x27, \x27post_id\x27, or \x27text\x27")
  else
    .errorStr (errJson ("Unknown tool: " ++ tool_name))

/-! ## `SwarmManager.delegate_task` (core/swarm.py lines 26-73)

The sub-agent constructor call at line 43 passes the keyword argument
`is_subagent=True`; `AgentBase.__init__` (core/agent_base.py line 15)
accepts only `(self, name, role_description, router)`.  Python therefore
raises `TypeError` at the call, *before* the `try` block at line 58, and
before `agent_id` is inserted into `active_agents` at line 44.  The
embedding models Python call/attribute resolution for this one call site
explicitly so that the exception path is visible. -/

/-- Parameters of `AgentBase.__init__` after `self` (core/agent_base.py line 15). -/
def agentBaseInitParams : List String := ["name", "role_description", "router"]

/-- Keywords `delegate_task` passes to the constructor (core/swarm.py line 43). -/
def swarmInitKwargs : List String := ["name", "role_description", "router", "is_subagent"]

/-- Attributes defined on `AgentBase` (core/agent_base.py): there is no `run`. -/
def agentBaseAttrs : List String :=
  ["name", "role_description", "router", "tools", "conversation_history",
   "_build_system_prompt", "register_tool", "add_message",
   "_parse_xml_tool_call", "run_cycle"]

/-- The safe default tool subset used when `allowed_tools` is omitted
(core/swarm.py line 49). -/
def defaultAllowedTools : List String :=
  ["web_search", "web_fetch", "run_python", "analyze_image", "system_read_file"]

/-- Outcome of a `delegate_task` call: a normal return or a propagated
Python exception, each with the `active_agents` registry keys afterwards. -/
inductive DelegateOutcome where
  | returns (result : String) (active_agents : List String)
  | raises (exc : String) (active_agents : List String)
  deriving DecidableEq, Repr

/-- `SwarmManager.delegate_task`.  `parentTools` is the parent agent's
registered tool-name list, `active_agents` the registry keys, `u` the fresh
uuid string, and `runResult` stands for what `sub_agent.run(...)` would
return if `AgentBase` had a `run` attribute. -/
def delegate_task (parentTools : List String) (active_agents : List String)
    (role_name task_description : String) (allowed_tools : Option (List String))
    (u : String) (runResult : String) : DelegateOutcome :=
  let agent_id := "SubAgent-" ++ role_name ++ "-" ++ u.take 6
  if swarmInitKwargs.all (fun k => k ∈ agentBaseInitParams) then
    -- Would run only if the constructor call were valid; in the source as
    -- written this branch is unreachable ("is_subagent" is not a parameter).
    let active1 := active_agents ++ [agent_id]
    let allowed := allowed_tools.getD defaultAllowedTools
    let _sub_tools := parentTools.filter (fun t => t ∈ allowed)
    -- try: result = sub_agent.run(...); except: error string; finally: cleanup
    let result :=
      if "run" ∈ agentBaseAttrs then runResult
      else "Error evaluating sub-task: \x27AgentBase\x27 object has no attribute \x27run\x27"
    .returns result (active1.erase agent_id)
  else
    .raises "TypeError: __init__() got an unexpected keyword argument \x27is_subagent\x27"
      active_agents

/-! ## `Brain.solve` (orchestrator/brain.py lines 456-536)

The loop drives `main_agent.run_cycle`; the agent (network + LLM) is an
oracle `Nat → CycleOut` giving the outcome of the n-th cycle.  Tool
execution (step 2) only appends observations to the ledger, which the
counts below do not track; the counts record the post-task bookkeeping call
sites: `long_term_memory.store_episode` (line 523), the post-task
`self_learner.reflect_on_task` (line 526), and
`consciousness.on_task_complete` (line 529). -/

structure SolveCounts where
  store_episode : Nat
  reflect : Nat
  on_task_complete : Nat
  deriving DecidableEq, Repr

/-- Why the `while self.state_manager.task_queue:` loop stopped:
the queue drained, the iteration guard tripped (line 479 break), or an
agent cycle failed (line 491 break). -/
inductive LoopExit where
  | queueEmpty
  | iterGuard
  | agentFailed
  deriving DecidableEq, Repr

def solveLoop (oracle : Nat → CycleOut) (n : Nat) (sm : StateManager)
    (c : SolveCounts) : StateManager × SolveCounts × LoopExit :=
  if sm.task_queue = [] then (sm, c, .queueEmpty)
  else
    match hinc : increment_iteration sm with
    | (false, sm1) => (sm1, c, .iterGuard)
    | (true, sm1) =>
      match oracle n with
      | .failed _ => (set_state sm1 "ERROR", c, .agentFailed)
      | .toolRequested _ => solveLoop oracle (n + 1) (set_state sm1 "EXECUTING") c
      | .success _ =>
          let sm2 := set_state { sm1 with task_queue := sm1.task_queue.dropLast }
            "VERIFYING"
          solveLoop oracle (n + 1) sm2
            { store_episode := c.store_episode + 1, reflect := c.reflect + 1,
              on_task_complete := c.on_task_complete + 1 }
      | .unknown _ => solveLoop oracle (n + 1) sm1 c
termination_by sm.max_iterations_per_task + 1 - sm.current_iteration
decreasing_by
  all_goals
    simp only [increment_iteration] at hinc
    split at hinc
    · exact absurd hinc (by simp)
    · injection hinc with h1 h2
      subst h2
      simp [set_state]
      omega

structure SolveResult where
  final : StateManager
  loopFinal : StateManager
  counts : SolveCounts
  exit : LoopExit
  deriving Repr

/-- Lines 472-473: transition to PLANNING, then push the task. -/
def pushedState (sm : StateManager) (user_request : String) : StateManager :=
  let sm1 := set_state sm "PLANNING"
  { sm1 with task_queue := sm1.task_queue ++ [user_request] }

/-- `Brain.solve`: pre-task recall (no state-machine effect), transition to
PLANNING, push the task, run the loop, and finish with IDLE (line 535). -/
def solve (oracle : Nat → CycleOut) (sm : StateManager) (user_request : String) :
    SolveResult :=
  let sm2 := pushedState sm user_request
  let r := solveLoop oracle 0 sm2 { store_episode := 0, reflect := 0, on_task_complete := 0 }
  { final := set_state r.1 "IDLE", loopFinal := r.1, counts := r.2.1, exit := r.2.2 }

/-! ## Helper lemmas -/

theorem set_state_ERROR (s : StateManager) :
    set_state s "ERROR" = { s with current_state := "ERROR" } := rfl

theorem set_state_EXECUTING (s : StateManager) :
    set_state s "EXECUTING" = { s with current_state := "EXECUTING" } := rfl

theorem set_state_VERIFYING (s : StateManager) :
    set_state s "VERIFYING" = { s with current_state := "VERIFYING" } := rfl

theorem set_state_PLANNING (s : StateManager) :
    set_state s "PLANNING" =
      { s with current_state := "PLANNING", current_iteration := 0 } := rfl

theorem set_state_IDLE (s : StateManager) :
    set_state s "IDLE" =
      { s with current_state := "IDLE", current_iteration := 0 } := rfl

theorem increment_iteration_true_eq {s s1 : StateManager}
    (h : increment_iteration s = (true, s1)) :
    s1 = { s with current_iteration := s.current_iteration + 1 } ∧
      s.current_iteration + 1 ≤ s.max_iterations_per_task := by
  simp only [increment_iteration] at h
  split at h
  · exact absurd h (by simp)
  · rename_i hc
    injection h with h1 h2
    exact ⟨h2.symm, by omega⟩

theorem increment_iteration_false_eq {s s1 : StateManager}
    (h : increment_iteration s = (false, s1)) :
    s1 = { s with current_state := "ERROR",
                  current_iteration := s.current_iteration + 1 } ∧
      s.max_iterations_per_task < s.current_iteration + 1 := by
  simp only [increment_iteration] at h
  split at h
  · rename_i hc
    injection h with h1 h2
    refine ⟨h2.symm.trans ?_, by omega⟩
    rw [set_state_ERROR]
  · exact absurd h (by simp)

/-! ## Claim C5 -/

/-- C5: if the response content is exactly
`<function=web_search>\x7b"query":"x"\x7d</function>`, the textual tool-call parser
produces exactly one synthesized tool-call request with function name
`web_search` and arguments text `\x7b"query":"x"\x7d`. -/
theorem C5_exact_fragment_parses (u : String) :
    parse_xml_tool_call u "<function=web_search>\x7b\"query\":\"x\"\x7d</function>" =
      some [{ id := mkCallId u, type := "function",
              function := { name := "web_search",
                            arguments := "\x7b\"query\":\"x\"\x7d" } }] := by
  rfl

/-! ## Claim C10 -/

/-- C10: for every input text, the textual tool-call parser returns either
no result or a list with exactly one synthesized request — the first match
of the first applicable pattern — whose identifier is `"call_"` followed by
the first 8 characters of the fresh uuid string. -/
theorem C10_at_most_one_synthesized (text u : String) (l : List ToolCall)
    (h : parse_xml_tool_call u text = some l) :
    ∃ n a, l = [{ id := "call_" ++ u.take 8, type := "function",
                  function := { name := n, arguments := a } }] := by
  unfold parse_xml_tool_call at h
  rcases h1 : pat1Search text with - | ⟨g1, g2⟩ <;> rw [h1] at h
  · rcases h2 : pat2Search text with - | ⟨g1, g2⟩ <;> rw [h2] at h
    · rcases h3 : pat3Search text with - | ⟨g1, g2⟩ <;> rw [h3] at h
      · exact absurd h (by simp)
      · exact ⟨pyStripS g1, pyStripS g2, by injection h with h; exact h.symm⟩
    · exact ⟨pyStripS g1, pyStripS g2, by injection h with h; exact h.symm⟩
  · exact ⟨pyStripS g1, pyStripS g2, by injection h with h; exact h.symm⟩

/-- Witness for C10 at a text containing several tool-call tags: exactly
the first match of the first applicable pattern is converted. -/
theorem C10_witness :
    parse_xml_tool_call "123456789"
        "a <function=first_tool>\x7b\"x\": 1\x7d</function> b <function=second_tool>\x7b\"y\": 2\x7d</function>" =
      some [{ id := mkCallId "123456789", type := "function",
              function := { name := "first_tool", arguments := "\x7b\"x\": 1\x7d" } }] ∧
    ∃ n a,
      [({ id := mkCallId "123456789", type := "function",
          function := { name := "first_tool", arguments := "\x7b\"x\": 1\x7d" } } : ToolCall)] =
        [{ id := "call_" ++ String.take "123456789" 8, type := "function",
            function := { name := n, arguments := a } }] :=
  ⟨by rfl,
   C10_at_most_one_synthesized
     "a <function=first_tool>\x7b\"x\": 1\x7d</function> b <function=second_tool>\x7b\"y\": 2\x7d</function>"
     "123456789" _ (by rfl)⟩

/-! ## Claim C6 -/

/-- C6: whenever the first choice's message carries a non-empty structured
`tool_calls` list, `run_cycle` returns exactly that list with status
`tool_requested` and appends it as an assistant message (content defaulted
to `""`); the result is the same for **every** textual parser, so the
pattern matchers are never applied — even when the content field holds
tag-like text.  (`run_cycle` is `run_cycleGen` at the source's own parser.) -/
theorem C6_structured_calls_win (parser : String → Option (List ToolCall))
    (history : List Msg) (userInput : Option String) (md : MessageData)
    (rest : List Choice) (l : List ToolCall)
    (hl : md.tool_calls = some l) (hne : l ≠ []) :
    run_cycleGen parser history userInput (.ok ({ message := md } :: rest)) =
      (.toolRequested l,
       withUserInput history userInput ++
         [{ role := "assistant", content := some (md.content.getD ""),
            tool_calls := some l }]) := by
  cases l with
  | nil => exact absurd rfl hne
  | cons c cs => simp [run_cycleGen, hl]

/-- Witness for C6: a message whose content holds a tag-like text that
pattern 1 would match, yet the structured list is returned untouched by
`run_cycle` itself (the instantiated parser). -/
theorem C6_witness :
    (({ role := some "assistant",
        content := some "<function=web_search>\x7b\"query\":\"x\"\x7d</function>",
        tool_calls := some [{ id := "call_native", type := "function",
                              function := { name := "run_python",
                                            arguments := "\x7b\"code\": \"1\"\x7d" } }] } :
        MessageData).tool_calls =
      some [{ id := "call_native", type := "function",
              function := { name := "run_python",
                            arguments := "\x7b\"code\": \"1\"\x7d" } }]) ∧
    run_cycleGen (parse_xml_tool_call "deadbeef")
        [{ role := "system", content := some "sys" }] (some "hi")
        (.ok [{ message :=
          { role := some "assistant",
            content := some "<function=web_search>\x7b\"query\":\"x\"\x7d</function>",
            tool_calls := some [{ id := "call_native", type := "function",
                                  function := { name := "run_python",
                                                arguments := "\x7b\"code\": \"1\"\x7d" } }] } }]) =
      (.toolRequested [{ id := "call_native", type := "function",
                         function := { name := "run_python",
                                       arguments := "\x7b\"code\": \"1\"\x7d" } }],
       withUserInput [{ role := "system", content := some "sys" }] (some "hi") ++
         [{ role := "assistant",
            content := some ((some "<function=web_search>\x7b\"query\":\"x\"\x7d</function>").getD ""),
            tool_calls := some [{ id := "call_native", type := "function",
                                  function := { name := "run_python",
                                                arguments := "\x7b\"code\": \"1\"\x7d" } }] }]) :=
  ⟨rfl,
   C6_structured_calls_win (parse_xml_tool_call "deadbeef")
     [{ role := "system", content := some "sys" }] (some "hi") _ [] _ rfl
     (by simp)⟩

/-! ## Claim C2 -/

/-- `increment_iteration` under the ceiling: counter advances, nothing else
changes. -/
theorem increment_iteration_of_le (s : StateManager)
    (h : s.current_iteration + 1 ≤ s.max_iterations_per_task) :
    increment_iteration s =
      (true, { s with current_iteration := s.current_iteration + 1 }) := by
  simp only [increment_iteration]
  rw [if_neg (by simp; omega)]

/-- `increment_iteration` above the ceiling: returns `false` and forces
ERROR. -/
theorem increment_iteration_of_gt (s : StateManager)
    (h : s.max_iterations_per_task < s.current_iteration + 1) :
    increment_iteration s =
      (false, { s with current_state := "ERROR",
                       current_iteration := s.current_iteration + 1 }) := by
  simp only [increment_iteration]
  rw [if_pos (by simp; omega), set_state_ERROR]

/-- As long as the ceiling is not hit, iterated `increment_iteration` only
advances the counter: state, queue and ceiling are untouched. -/
theorem incRun_fields (s : StateManager) (h0 : s.current_iteration = 0) :
    ∀ k, k ≤ s.max_iterations_per_task →
      (incRun s k).current_iteration = k ∧
      (incRun s k).current_state = s.current_state ∧
      (incRun s k).max_iterations_per_task = s.max_iterations_per_task := by
  intro k
  induction k with
  | zero => intro _; simp [incRun, h0]
  | succ k ih =>
    intro hk
    obtain ⟨hit, hst, hmax⟩ := ih (by omega)
    have heq := increment_iteration_of_le (incRun s k) (by omega)
    refine ⟨?_, ?_, ?_⟩ <;> simp [incRun, heq, hit, hst, hmax]

/-- C2: from a reset counter with the ceiling at its default 10, each of the
first 10 `increment_iteration` calls returns `true` and leaves the current
state unchanged; the 11th returns `false` and forces ERROR; `set_state` to
PLANNING or IDLE resets the counter to 0 and every other valid transition
(EXECUTING, VERIFYING, ERROR) leaves it untouched. -/
theorem C2_iteration_guard (s : StateManager)
    (h0 : s.current_iteration = 0) (hmax : s.max_iterations_per_task = 10) :
    (∀ k, k < 10 →
      (increment_iteration (incRun s k)).1 = true ∧
      (incRun s (k + 1)).current_state = s.current_state) ∧
    (increment_iteration (incRun s 10)).1 = false ∧
    (incRun s 11).current_state = "ERROR" ∧
    (∀ t : StateManager,
      (set_state t "PLANNING").current_iteration = 0 ∧
      (set_state t "IDLE").current_iteration = 0 ∧
      (set_state t "EXECUTING").current_iteration = t.current_iteration ∧
      (set_state t "VERIFYING").current_iteration = t.current_iteration ∧
      (set_state t "ERROR").current_iteration = t.current_iteration) := by
  obtain ⟨hit10, hst10, hm10⟩ := incRun_fields s h0 10 (by omega)
  have hbreak := increment_iteration_of_gt (incRun s 10) (by omega)
  refine ⟨?_, ?_, ?_, ?_⟩
  · intro k hk
    obtain ⟨hit, hst, hm⟩ := incRun_fields s h0 k (by omega)
    obtain ⟨hit1, hst1, hm1⟩ := incRun_fields s h0 (k + 1) (by omega)
    exact ⟨by rw [increment_iteration_of_le (incRun s k) (by omega)], hst1⟩
  · rw [hbreak]
  · have h11 : incRun s 11 = (increment_iteration (incRun s 10)).2 := rfl
    rw [h11, hbreak]
  · intro t
    refine ⟨?_, ?_, ?_, ?_, ?_⟩ <;>
      simp [set_state_PLANNING, set_state_IDLE, set_state_EXECUTING,
        set_state_VERIFYING, set_state_ERROR]

/-- Witness for C2 at the freshly constructed `StateManager`. -/
theorem C2_witness :
    stateManagerInit.current_iteration = 0 ∧
    stateManagerInit.max_iterations_per_task = 10 ∧
    ((∀ k, k < 10 →
      (increment_iteration (incRun stateManagerInit k)).1 = true ∧
      (incRun stateManagerInit (k + 1)).current_state = stateManagerInit.current_state) ∧
    (increment_iteration (incRun stateManagerInit 10)).1 = false ∧
    (incRun stateManagerInit 11).current_state = "ERROR" ∧
    (∀ t : StateManager,
      (set_state t "PLANNING").current_iteration = 0 ∧
      (set_state t "IDLE").current_iteration = 0 ∧
      (set_state t "EXECUTING").current_iteration = t.current_iteration ∧
      (set_state t "VERIFYING").current_iteration = t.current_iteration ∧
      (set_state t "ERROR").current_iteration = t.current_iteration)) :=
  ⟨rfl, rfl, C2_iteration_guard stateManagerInit rfl rfl⟩

/-! ## Claim C9 -/

/-- Pruning never touches the entry at index 0. -/
theorem pruneHistory_headQ (max_chars : Nat) :
    ∀ h : List CWMsg, (pruneHistory max_chars h).head? = h.head? := by
  have main : ∀ n (h : List CWMsg), h.length ≤ n →
      (pruneHistory max_chars h).head? = h.head? := by
    intro n
    induction n with
    | zero =>
      intro h hl
      rw [pruneHistory]
      rw [if_neg (by omega)]
    | succ n ih =>
      intro h hl
      rw [pruneHistory]
      split
      · rename_i hc
        cases h with
        | nil => simp at hc
        | cons a t =>
          cases t with
          | nil => simp at hc
          | cons b t2 =>
            have : popIndex1 (a :: b :: t2) = a :: t2 := rfl
            rw [this, ih (a :: t2) (by simp at hl ⊢; omega)]
            rfl
      · rfl
  intro h
  exact main h.length h le_rfl

/-- C9: in every size-bounded context window and every agent ledger, the
entry at index 0 placed initially is still the entry at index 0 after any
sequence of `add_message` (and induced prune) operations: appending adds
only at the end and pruning removes only entries at index 1 or greater. -/
theorem C9_system_entry_pinned :
    (∀ (max_chars : Nat) (ops : List (String × String)) (sys : CWMsg)
        (rest : List CWMsg),
      (cwApply max_chars (sys :: rest) ops).head? = some sys) ∧
    (∀ (ms : List Msg) (sys : Msg) (rest : List Msg),
      (agentApply (sys :: rest) ms).head? = some sys) := by
  constructor
  · intro max_chars ops
    induction ops with
    | nil => intro sys rest; rfl
    | cons op ops ih =>
      intro sys rest
      obtain ⟨r, c⟩ := op
      show (cwApply max_chars (cwAddMessage max_chars (sys :: rest) r c) ops).head? = some sys
      have hhead : (cwAddMessage max_chars (sys :: rest) r c).head? = some sys := by
        unfold cwAddMessage
        rw [pruneHistory_headQ]
        rfl
      obtain ⟨x, xs, hx⟩ : ∃ x xs, cwAddMessage max_chars (sys :: rest) r c = x :: xs := by
        cases hh : cwAddMessage max_chars (sys :: rest) r c with
        | nil => rw [hh] at hhead; simp at hhead
        | cons x xs => exact ⟨x, xs, rfl⟩
      rw [hx] at hhead ⊢
      obtain rfl : x = sys := by simpa using hhead
      exact ih _ xs
  · intro ms
    induction ms with
    | nil => intro sys rest; rfl
    | cons m ms ih =>
      intro sys rest
      show (agentApply (agentAddMessage (sys :: rest) m) ms).head? = some sys
      unfold agentAddMessage
      exact ih sys (rest ++ [m])

/-! ## Claim C1 -/

/-- An environment in which the Groq credential is not configured while the
reasoning model routes to the native Groq endpoint. -/
def noGroqKeyEnv : RouterEnv :=
  { openrouter_api_key := some "sk-or-test", groq_api_key := none,
    default_reasoning_model := "groq/llama-3.1-8b-instant",
    default_tooling_model := "meta-llama/llama-3-8b-instruct" }

/-- An HTTP oracle that would answer any request successfully. -/
def alwaysOkHttp : HttpRequest → HttpOutcome := fun _ => .ok []

/-- Counterexample to C1: with the Groq credential unset (`credentialOf`
is `none`), `generate_response` still issues its first — and here only —
request to the Groq endpoint instead of skipping it and trying the next
provider: no credential check exists in `generate_response`. -/
theorem C1_counterexample :
    credentialOf noGroqKeyEnv .groq = none ∧
    (generate_response noGroqKeyEnv alwaysOkHttp [] "reasoning" none "u").2 =
      [{ provider := .groq, model := "llama-3.1-8b-instant",
         messages := [], tools := none }] := by
  exact ⟨rfl, rfl⟩

/-- C1 amended: `generate_response` never checks credentials — for every
environment and oracle, the first request issued is always to the provider
selected by the task type and model prefix, configured credential or not;
and the only fallback is Groq → OpenRouter after an HTTP error that is not
intercepted, never a credential-based skip. -/
theorem C1_amended_no_credential_skip (env : RouterEnv)
    (http : HttpRequest → HttpOutcome) (messages : List Msg)
    (task_type : String) (tools : Option (List String)) (u : String) :
    (generate_response env http messages task_type tools u).2.head? =
      some (initialRequest env task_type messages tools) := by
  unfold generate_response
  cases h : http (initialRequest env task_type messages tools) with
  | ok d => simp [h]
  | netError m => simp [h]
  | httpError st b m =>
    simp only [h]
    cases hi : interceptToolUseFailed st b with
    | some p => obtain ⟨fn, fa⟩ := p; simp [hi]
    | none =>
      simp only [hi]
      split
      · split <;> simp
      · simp

/-! ## Claim C7 -/

/-- C7: when the first provider rejects the request with an HTTP 400 whose
body carries `error.code == "tool_use_failed"` and an embedded
`failed_generation` in which the interception pattern finds a
`<function=NAME>ARGS</function>` fragment, `generate_response` synthesizes
one tool call from the matched (stripped) name and arguments and returns a
success envelope — one choice, an assistant message carrying the
synthesized `tool_calls` — not a failure result. -/
theorem C7_tool_use_failed_interception (env : RouterEnv)
    (http : HttpRequest → HttpOutcome) (messages : List Msg)
    (task_type : String) (tools : Option (List String)) (u : String)
    (fg m n a : String)
    (h1 : http (initialRequest env task_type messages tools) =
      .httpError 400 (.jsonBody (some "tool_use_failed") (some fg)) m)
    (h2 : patRouterSearch fg = some (n, a)) :
    generate_response env http messages task_type tools u =
      (.ok (syntheticEnvelope u (pyStripS n) (pyStripS a)),
       [initialRequest env task_type messages tools]) := by
  unfold generate_response
  simp [h1, interceptToolUseFailed, h2]

/-- The concrete failed-generation text Groq embeds (source comment,
llm_router.py line 88). -/
def groqFailedGen : String :=
  "<function=web_search>\x7b\"query\": \"cuaca Jakarta hari ini\"\x7d</function>"

/-- An oracle rejecting everything with the structured tool_use_failed
error. -/
def toolUseFailedHttp : HttpRequest → HttpOutcome := fun _ =>
  .httpError 400 (.jsonBody (some "tool_use_failed") (some groqFailedGen))
    "400 Client Error: Bad Request"

/-- Witness for C7 at the concrete error body from the source comment. -/
theorem C7_witness :
    (toolUseFailedHttp (initialRequest noGroqKeyEnv "reasoning" [] none) =
      .httpError 400 (.jsonBody (some "tool_use_failed") (some groqFailedGen))
        "400 Client Error: Bad Request") ∧
    (patRouterSearch groqFailedGen =
      some ("web_search", "\x7b\"query\": \"cuaca Jakarta hari ini\"\x7d")) ∧
    generate_response noGroqKeyEnv toolUseFailedHttp [] "reasoning" none "feedc0de" =
      (.ok (syntheticEnvelope "feedc0de" (pyStripS "web_search")
        (pyStripS "\x7b\"query\": \"cuaca Jakarta hari ini\"\x7d")),
       [initialRequest noGroqKeyEnv "reasoning" [] none]) :=
  ⟨rfl, rfl,
   C7_tool_use_failed_interception noGroqKeyEnv toolUseFailedHttp [] "reasoning"
     none "feedc0de" groqFailedGen "400 Client Error: Bad Request"
     "web_search" "\x7b\"query\": \"cuaca Jakarta hari ini\"\x7d" rfl rfl⟩

/-! ## Claim C3 -/

/-- The core tools registered to the main agent
(`Brain._register_default_tools`, brain.py lines 185-195). -/
def brainCoreTools : List String :=
  ["system_run_command", "system_read_file", "system_list_directory",
   "system_patch_file", "web_search", "self_reflect", "recall_knowledge",
   "delegate_task", "run_python"]

/-- Counterexample to C3: the dispatcher handed to every sub-agent is the
parent's `Brain._execute_tool` itself (core/swarm.py line 62), which
performs no allowed-subset filtering: a call naming `system_run_command` —
a tool outside the fixed safe default subset — is dispatched to the shell
backend, not rejected. -/
theorem C3_counterexample :
    "system_run_command" ∉ defaultAllowedTools ∧
    execute_tool "system_run_command" [("command", .str "whoami")] =
      .invoke (.runCommand (.str "whoami")) := by
  exact ⟨by decide, rfl⟩

/-- C3 amended: capability containment for sub-agents is attempted only by
copying the schemas whose names are in the allowed subset into the
sub-agent's catalog; the shared dispatcher executes any tool it recognizes
regardless of that subset (e.g. `system_run_command`, registered to the
parent but outside the default safe subset, is executed), and rejects a
call only when the name has no dispatch branch at all. -/
theorem C3_amended_dispatcher_no_subset_filter :
    ("system_run_command" ∈ brainCoreTools ∧
     "system_run_command" ∉ defaultAllowedTools ∧
     execute_tool "system_run_command" [("command", .str "whoami")] =
       .invoke (.runCommand (.str "whoami"))) ∧
    (∀ args : Args,
      execute_tool "made_up_capability" args =
        .errorStr (errJson "Unknown tool: made_up_capability")) := by
  refine ⟨⟨by decide, by decide, rfl⟩, fun args => rfl⟩

/-! ## Claim C4 -/

/-- C4 (the code against the claim): every `delegate_task` call raises
`TypeError` out of the sub-agent construction at core/swarm.py line 43
(`AgentBase.__init__` has no `is_subagent` parameter), *before* the
`try`/`except`/`finally` of lines 58-71, so the failure propagates to the
caller instead of being converted to an error-string result. -/
theorem C4_construction_failure_propagates
    (parentTools active_agents : List String)
    (role_name task_description : String)
    (allowed_tools : Option (List String)) (u runResult : String) :
    delegate_task parentTools active_agents role_name task_description
        allowed_tools u runResult =
      .raises "TypeError: __init__() got an unexpected keyword argument \x27is_subagent\x27"
        active_agents := by
  rfl

/-! ## Claim C8 -/

theorem solveLoop_nil (oracle : Nat → CycleOut) (n : Nat) (sm : StateManager)
    (c : SolveCounts) (h : sm.task_queue = []) :
    solveLoop oracle n sm c = (sm, c, .queueEmpty) := by
  unfold solveLoop
  rw [if_pos h]

/-- Behaviour of the while loop on a single-task queue: if it exits because
the queue drained, exactly one round of post-task bookkeeping happened;
on any other exit (iteration guard, failed cycle) no bookkeeping happened
and the loop left the machine in ERROR. -/
theorem solveLoop_single_spec (oracle : Nat → CycleOut) (t : String) :
    ∀ (μ : Nat) (sm : StateManager) (n : Nat) (c : SolveCounts),
      sm.max_iterations_per_task + 1 - sm.current_iteration = μ →
      sm.task_queue = [t] →
      ((solveLoop oracle n sm c).2.2 = .queueEmpty →
        (solveLoop oracle n sm c).2.1 =
          { store_episode := c.store_episode + 1, reflect := c.reflect + 1,
            on_task_complete := c.on_task_complete + 1 }) ∧
      ((solveLoop oracle n sm c).2.2 ≠ .queueEmpty →
        (solveLoop oracle n sm c).2.1 = c ∧
        (solveLoop oracle n sm c).1.current_state = "ERROR") := by
  intro μ
  induction μ using Nat.strong_induction_on with
  | _ μ ih =>
    intro sm n c hμ hq
    have hne : sm.task_queue ≠ [] := by rw [hq]; simp
    unfold solveLoop
    rw [if_neg hne]
    split
    · -- increment_iteration sm = (false, sm1): iteration-guard break
      rename_i sm1 heq
      obtain ⟨hsm1, -⟩ := increment_iteration_false_eq heq
      refine ⟨fun habs => by simp at habs, fun _ => ⟨rfl, ?_⟩⟩
      rw [hsm1]
    · -- increment_iteration sm = (true, sm1)
      rename_i sm1 heq
      obtain ⟨hsm1, hle⟩ := increment_iteration_true_eq heq
      split
      · -- failed cycle
        refine ⟨fun habs => by simp at habs, fun _ => ⟨rfl, ?_⟩⟩
        rw [set_state_ERROR]
      · -- tool_requested: recurse
        refine ih ((set_state sm1 "EXECUTING").max_iterations_per_task + 1 -
            (set_state sm1 "EXECUTING").current_iteration) ?_ _ _ _ rfl ?_
        · rw [set_state_EXECUTING, hsm1]
          simp
          omega
        · rw [set_state_EXECUTING, hsm1]
          simpa using hq
      · -- success: the task is popped, the next check drains the queue
        rw [solveLoop_nil _ _ _ _ (by rw [set_state_VERIFYING, hsm1]; simp [hq])]
        exact ⟨fun _ => rfl, fun habs => absurd rfl habs⟩
      · -- unknown status: loop again, nothing changes
        refine ih (sm1.max_iterations_per_task + 1 - sm1.current_iteration)
          ?_ _ _ _ rfl ?_
        · rw [hsm1]
          simp
          omega
        · rw [hsm1]
          simpa using hq

/-- C8: for a top-level task submitted to `solve` from an empty queue, the
post-task `store_episode` and reflection call sites each run exactly once
if and only if the loop ends with the queue drained by a terminal
plain-text answer; on any run whose loop instead ends in ERROR (gateway
failure or iteration-ceiling breach) neither call site runs. -/
theorem C8_store_reflect_iff_success (oracle : Nat → CycleOut)
    (sm : StateManager) (user_request : String) (hq : sm.task_queue = []) :
    ((solve oracle sm user_request).exit = .queueEmpty ↔
      (solve oracle sm user_request).counts.store_episode = 1 ∧
      (solve oracle sm user_request).counts.reflect = 1) ∧
    ((solve oracle sm user_request).exit ≠ .queueEmpty →
      (solve oracle sm user_request).counts.store_episode = 0 ∧
      (solve oracle sm user_request).counts.reflect = 0 ∧
      (solve oracle sm user_request).loopFinal.current_state = "ERROR") := by
  have hq2 : (pushedState sm user_request).task_queue = [user_request] := by
    simp [pushedState, set_state_PLANNING, hq]
  have key := solveLoop_single_spec oracle user_request
    ((pushedState sm user_request).max_iterations_per_task + 1 -
      (pushedState sm user_request).current_iteration)
    (pushedState sm user_request) 0
    { store_episode := 0, reflect := 0, on_task_complete := 0 } rfl hq2
  simp only [solve]
  by_cases he : (solveLoop oracle 0 (pushedState sm user_request)
      { store_episode := 0, reflect := 0, on_task_complete := 0 }).2.2 = .queueEmpty
  · have hc := key.1 he
    refine ⟨⟨fun _ => ?_, fun _ => he⟩, fun habs => absurd he habs⟩
    rw [hc]
    exact ⟨rfl, rfl⟩
  · obtain ⟨hc, herr⟩ := key.2 he
    refine ⟨⟨fun habs => absurd habs he, fun ⟨h1, _⟩ => ?_⟩, fun _ => ?_⟩
    · rw [hc] at h1
      simp at h1
    · rw [hc]
      exact ⟨rfl, rfl, herr⟩

/-- Witness for C8 at the fresh state manager and an oracle that answers
with a terminal text immediately. -/
theorem C8_witness :
    stateManagerInit.task_queue = [] ∧
    (((solve (fun _ => .success "done") stateManagerInit "task").exit = .queueEmpty ↔
      (solve (fun _ => .success "done") stateManagerInit "task").counts.store_episode = 1 ∧
      (solve (fun _ => .success "done") stateManagerInit "task").counts.reflect = 1) ∧
    ((solve (fun _ => .success "done") stateManagerInit "task").exit ≠ .queueEmpty →
      (solve (fun _ => .success "done") stateManagerInit "task").counts.store_episode = 0 ∧
      (solve (fun _ => .success "done") stateManagerInit "task").counts.reflect = 0 ∧
      (solve (fun _ => .success "done") stateManagerInit "task").loopFinal.current_state = "ERROR")) :=
  ⟨rfl, C8_store_reflect_iff_success (fun _ => .success "done") stateManagerInit "task" rfl⟩

end OpenApex
